import Mathlib

/-!
Verification development for the `vnc` client package (`vncclient.go`).

The embedding is shallow: the package's data model and the two core control
flows — `Connect` (the five-step handshake) and `ClientConn.ListenAndHandle`
(the message dispatch loop) — are translated into executable Lean functions.
The byte stream is a `List Nat`; reading the one-byte message type consumes
the head, and a failed read (including clean stream closure) is the empty
stream. Go's `error` results are `Option String` (`none` = nil). The consumer
channel is modelled by its observable effect: a flag saying whether it is
configured, plus the ordered list of messages sent on it.
-/

namespace VNC

/-- A single color entry (red/green/blue, 16-bit each). -/
structure Color where
  red : Nat := 0
  green : Nat := 0
  blue : Nat := 0
deriving DecidableEq

/-- The pixel format record negotiated with the server. -/
structure PixelFormat where
  bitsPerPixel : Nat := 0
  depth : Nat := 0
  bigEndian : Bool := false
  trueColor : Bool := false
  redMax : Nat := 0
  greenMax : Nat := 0
  blueMax : Nat := 0
  redShift : Nat := 0
  greenShift : Nat := 0
  blueShift : Nat := 0
deriving DecidableEq

/-- An encoding, identified by its numeric type code (`Encoding.Type()`);
its rectangle decoder is outside the dispatch-loop core. -/
structure Encoding where
  type : Nat
deriving DecidableEq

/-- A decoded server message (the value sent on the consumer channel).
Its internal structure is irrelevant to the dispatch loop, which treats
decoded messages opaquely; we tag each with a `Nat` payload. -/
structure Msg where
  payload : Nat
deriving DecidableEq

/-- A server message handler: `type` is `ServerMessage.Type()`, `read` is
`ServerMessage.Read(conn, reader)` decoding one message body from the stream
(returning the decoded message and the remaining stream, or `none` on a
decode error). `read_le` records that a decoder only consumes bytes from
the stream, never invents them. -/
structure ServerMessage where
  type : Nat
  read : List Nat → Option (Msg × List Nat)
  read_le : ∀ s m s2, read s = some (m, s2) → s2.length ≤ s.length

/-- Modelled from the spec: `ClientAuth` implementations (`ClientAuthNone`,
`ClientAuthVNC`) are not in the provided sources; the spec describes them as
polymorphic over a numeric security-type code, "no authentication" and
password authentication being the two supplied candidates. -/
inductive ClientAuth where
  | noAuth : ClientAuth
  | vncAuth (password : String) : ClientAuth
deriving DecidableEq

/-- Modelled from the spec: the numeric security-type code of an auth
candidate (RFC 6143 assigns 1 to no-auth and 2 to VNC password auth;
the spec only requires a numeric code, with 0 reserved). -/
def ClientAuth.securityType : ClientAuth → Nat
  | .noAuth => 1
  | .vncAuth _ => 2

/-- The client configuration (`ClientConfig`). `ServerMessageCh` is a Go
channel, modelled by whether it is non-nil; `ServerMessages` is a Go slice,
modelled as `Option` to keep the nil / non-nil distinction the code tests. -/
structure ClientConfig where
  Auth : List ClientAuth := []
  Password : String := ""
  Exclusive : Bool := false
  ServerMessageCh : Bool := false
  ServerMessages : Option (List ServerMessage) := none

/-- The client connection (`ClientConn`): the underlying byte stream plus
the configuration and the server-populated display fields. -/
structure ClientConn where
  config : ClientConfig
  stream : List Nat := []
  protocolVersion : String := ""
  ColorMap : List Color := []
  Encodings : List Encoding := []
  FramebufferWidth : Nat := 0
  FramebufferHeight : Nat := 0
  desktopName : String := ""

/-- A message handler whose body decoder consumes nothing and always
succeeds with a fixed payload (used for handlers whose decoders are out
of scope, and as a minimal registered handler in concrete scenarios). -/
def mkConstMessage (t p : Nat) : ServerMessage where
  type := t
  read := fun s => some ({ payload := p }, s)
  read_le := by
    intro s m s2 h
    simp only [Option.some.injEq, Prod.mk.injEq] at h
    exact h.2 ▸ Nat.le_refl _

/-- A message handler whose body decoder always fails (used to exercise
the decode-error path in concrete scenarios). -/
def mkFailMessage (t : Nat) : ServerMessage where
  type := t
  read := fun _ => none
  read_le := by
    intro s m s2 h
    simp at h

/-- Modelled from the spec: `NewFramebufferUpdateMessage` is not in the
provided sources; RFC 6143 assigns the framebuffer-update message type
code 0. Its body decoder is out of scope and stubbed. -/
def NewFramebufferUpdateMessage (_encs : Option (List Encoding)) : ServerMessage :=
  mkConstMessage 0 0

/-- Modelled from the spec: `SetColorMapEntriesMessage` (type code 1);
body decoder out of scope. -/
def SetColorMapEntriesMessage : ServerMessage := mkConstMessage 1 1

/-- Modelled from the spec: `BellMessage` (type code 2); body decoder
out of scope. -/
def BellMessage : ServerMessage := mkConstMessage 2 2

/-- Modelled from the spec: `ServerCutTextMessage` (type code 3); body
decoder out of scope. -/
def ServerCutTextMessage : ServerMessage := mkConstMessage 3 3

/-- `NewClientConfig` returns a populated `ClientConfig`
(`vncclient.go:77-91`); unset Go fields take their zero values. -/
def NewClientConfig (p : String) : ClientConfig :=
  { Auth := [ClientAuth.noAuth, ClientAuth.vncAuth p]
    Password := p
    ServerMessages := some [NewFramebufferUpdateMessage none,
      SetColorMapEntriesMessage, BellMessage, ServerCutTextMessage] }

/-- The outcomes of the five handshake steps. Their bodies are external to
the provided sources; `Connect` only observes each step's returned error
(`none` = success), so each step is an oracle outcome. -/
structure HandshakeSteps where
  protocolVersionHandshake : Option String := none
  securityHandshake : Option String := none
  securityResultHandshake : Option String := none
  clientInit : Option String := none
  serverInit : Option String := none

/-- Names of the handshake steps, used to record the order in which
`Connect` executes them. -/
inductive StepName where
  | protocolVersion
  | security
  | securityResult
  | clientInitStep
  | serverInitStep
deriving DecidableEq

/-- What `Connect` returns and does: the session (`none` = nil), the
returned error, whether `conn.Close()` was called, and the sequence of
handshake steps that executed. -/
structure ConnectResult where
  session : Option ClientConn
  err : Option String
  closed : Bool
  trace : List StepName

/-- `Connect` (`vncclient.go:18-46`): runs the five handshake steps in
order; on the first failure it closes the connection and returns `nil`
with that step's error; if all succeed it returns the connection. -/
def Connect (cfg : ClientConfig) (stream : List Nat) (steps : HandshakeSteps) :
    ConnectResult :=
  match steps.protocolVersionHandshake with
  | some e => ⟨none, some e, true, [.protocolVersion]⟩
  | none =>
    match steps.securityHandshake with
    | some e => ⟨none, some e, true, [.protocolVersion, .security]⟩
    | none =>
      match steps.securityResultHandshake with
      | some e => ⟨none, some e, true, [.protocolVersion, .security, .securityResult]⟩
      | none =>
        match steps.clientInit with
        | some e => ⟨none, some e, true,
            [.protocolVersion, .security, .securityResult, .clientInitStep]⟩
        | none =>
          match steps.serverInit with
          | some e => ⟨none, some e, true,
              [.protocolVersion, .security, .securityResult, .clientInitStep,
               .serverInitStep]⟩
          | none => ⟨some { config := cfg, stream := stream }, none, false,
              [.protocolVersion, .security, .securityResult, .clientInitStep,
               .serverInitStep]⟩

/-- Why the dispatch loop stopped: the type-byte read failed (including
clean stream closure), the type byte matched no registered message, or the
matching decoder returned an error. The loop itself does not report these;
the distinction exists only in the model. -/
inductive LoopEnd where
  | streamErr
  | unsupportedType
  | decodeErr
deriving DecidableEq

/-- The lookup table built at `vncclient.go:141-144`: a Go map populated by
inserting each configured message keyed by `m.Type()`, so a later entry with
the same type code overwrites an earlier one — lookup finds the last match. -/
def lookupMsg (table : List ServerMessage) (t : Nat) : Option ServerMessage :=
  table.reverse.find? (fun m => m.type == t)

/-- The observable behaviour of one run of the dispatch loop
(`vncclient.go:146-172`): the messages decoded, the messages actually sent
on the consumer channel, and why the loop stopped. -/
structure LoopOut where
  decoded : List Msg
  delivered : List Msg
  cause : LoopEnd
deriving DecidableEq

/-- The dispatch loop body (`vncclient.go:146-172`). Each iteration reads
one type byte (failing if the stream is exhausted), looks the byte up in
the table (unknown type is fatal), runs the matching decoder (decode error
is fatal), then either sends the decoded message on the consumer channel or,
when no channel is configured, discards it and continues. -/
def listenLoop (table : List ServerMessage) (hasCh : Bool) :
    (stream : List Nat) → LoopOut
  | [] => ⟨[], [], .streamErr⟩
  | t :: rest =>
    match lookupMsg table t with
    | none => ⟨[], [], .unsupportedType⟩
    | some m =>
      match h : m.read rest with
      | none => ⟨[], [], .decodeErr⟩
      | some (msg, rest2) =>
        let out := listenLoop table hasCh rest2
        ⟨msg :: out.decoded, (if hasCh then [msg] else []) ++ out.delivered,
         out.cause⟩
termination_by stream => stream.length
decreasing_by
  have hle := m.read_le rest msg rest2 h
  simp only [List.length_cons]
  omega

/-- What `ListenAndHandle` returns and does: the decoded and delivered
messages, the loop's termination cause (`none` when the loop never ran,
i.e. no byte was read from the stream), the returned error (`none` = nil),
and whether the deferred `c.Close()` ran. -/
structure ListenResult where
  decoded : List Msg
  delivered : List Msg
  cause : Option LoopEnd
  ret : Option String
  closed : Bool
deriving DecidableEq

/-- `NewVNCError` is defined outside the provided sources; it wraps a
message string into an error value, modelled as the string itself. -/
def NewVNCError (s : String) : String := s

/-- `ClientConn.ListenAndHandle` (`vncclient.go:135-175`): with `c.Close()`
deferred on every path, it fails if `config.ServerMessages` is nil, else
builds the type table and runs the dispatch loop, returning nil whatever
stopped the loop. -/
def ListenAndHandle (c : ClientConn) : ListenResult :=
  match c.config.ServerMessages with
  | none => ⟨[], [], none,
      some (NewVNCError "Client config error: ServerMessages undefined"), true⟩
  | some msgs =>
    let out := listenLoop msgs c.config.ServerMessageCh c.stream
    ⟨out.decoded, out.delivered, some out.cause, none, true⟩

/-- `DecodesTo table stream msgs rest` says: starting from `stream`, the
dispatch loop's read-lookup-decode cycle succeeds some number of times,
producing the messages `msgs` in order and leaving `rest` of the stream
unread. Used to state the well-formed-stream scenarios. -/
inductive DecodesTo (table : List ServerMessage) :
    List Nat → List Msg → List Nat → Prop where
  | nil (s : List Nat) : DecodesTo table s [] s
  | cons {t : Nat} {rest rest2 final : List Nat} {m : ServerMessage}
      {msg : Msg} {msgs : List Msg}
      (hfind : lookupMsg table t = some m)
      (hread : m.read rest = some (msg, rest2))
      (htail : DecodesTo table rest2 msgs final) :
      DecodesTo table (t :: rest) (msg :: msgs) final

/-- A registered custom message handler (type code 5) for concrete
scenarios; its decoder consumes no body bytes. -/
def msgA : ServerMessage := mkConstMessage 5 100

/-- A registered message handler (type code 6) whose decoder always
fails, for concrete scenarios. -/
def msgB : ServerMessage := mkFailMessage 6

/-- A connection whose configuration registers only the custom type 5,
with a framebuffer-update type byte (0) on the wire. -/
def connOnlyCustom : ClientConn :=
  { config := { ServerMessageCh := true, ServerMessages := some [msgA] }
    stream := [0] }

/-- A connection carrying one well-formed type-5 message followed by an
unregistered type byte 9. -/
def connSecondUnregistered : ClientConn :=
  { config := { ServerMessageCh := true, ServerMessages := some [msgA] }
    stream := [5, 9] }

/-- A connection carrying two consecutive well-formed type-5 messages. -/
def connTwoMessages : ClientConn :=
  { config := { ServerMessageCh := true, ServerMessages := some [msgA] }
    stream := [5, 5] }

/-- A connection whose stream is already exhausted. -/
def connEmptyStream : ClientConn :=
  { config := { ServerMessageCh := true, ServerMessages := some [msgA] }
    stream := [] }

/-- A connection whose first type byte matches no registered message. -/
def connBadByte : ClientConn :=
  { config := { ServerMessageCh := true, ServerMessages := some [msgA] }
    stream := [9] }

/-- A connection whose first message's decoder fails. -/
def connDecodeFail : ClientConn :=
  { config := { ServerMessageCh := true, ServerMessages := some [msgB] }
    stream := [6] }

/-- A connection with two well-formed messages but no consumer channel. -/
def connNoChannel : ClientConn :=
  { config := { ServerMessageCh := false, ServerMessages := some [msgA] }
    stream := [5, 5] }

/-- A connection whose configuration leaves `ServerMessages` nil while
bytes wait on the wire. -/
def connNilMessages : ClientConn :=
  { config := { ServerMessageCh := true }
    stream := [0, 1, 2] }

theorem listenLoop_nil (table : List ServerMessage) (ch : Bool) :
    listenLoop table ch [] = ⟨[], [], .streamErr⟩ := by
  simp [listenLoop]

theorem listenLoop_cons_noFind (table : List ServerMessage) (ch : Bool)
    (t : Nat) (rest : List Nat) (h : lookupMsg table t = none) :
    listenLoop table ch (t :: rest) = ⟨[], [], .unsupportedType⟩ := by
  rw [listenLoop]
  simp [h]

theorem listenLoop_cons_decodeErr (table : List ServerMessage) (ch : Bool)
    (t : Nat) (rest : List Nat) (m : ServerMessage)
    (hm : lookupMsg table t = some m) (h : m.read rest = none) :
    listenLoop table ch (t :: rest) = ⟨[], [], .decodeErr⟩ := by
  rw [listenLoop]
  simp only [hm]
  split <;> simp_all

theorem listenLoop_cons_ok (table : List ServerMessage) (ch : Bool)
    (t : Nat) (rest : List Nat) (m : ServerMessage) (msg : Msg)
    (rest2 : List Nat) (hm : lookupMsg table t = some m)
    (h : m.read rest = some (msg, rest2)) :
    listenLoop table ch (t :: rest) =
      ⟨msg :: (listenLoop table ch rest2).decoded,
       (if ch then [msg] else []) ++ (listenLoop table ch rest2).delivered,
       (listenLoop table ch rest2).cause⟩ := by
  rw [listenLoop]
  simp only [hm]
  split <;> simp_all

theorem listenLoop_decodes (table : List ServerMessage) (ch : Bool)
    {stream : List Nat} {msgs : List Msg} {final : List Nat}
    (h : DecodesTo table stream msgs final) :
    listenLoop table ch stream =
      ⟨msgs ++ (listenLoop table ch final).decoded,
       (if ch then msgs else []) ++ (listenLoop table ch final).delivered,
       (listenLoop table ch final).cause⟩ := by
  induction h with
  | nil s => cases ch <;> simp
  | cons hfind hread htail ih =>
    rw [listenLoop_cons_ok _ _ _ _ _ _ _ hfind hread, ih]
    cases ch <;> simp

theorem listenLoop_noCh_aux (table : List ServerMessage) :
    ∀ (n : Nat) (s : List Nat), s.length ≤ n →
    (listenLoop table false s).delivered = [] ∧
    (listenLoop table false s).decoded = (listenLoop table true s).decoded ∧
    (listenLoop table false s).cause = (listenLoop table true s).cause := by
  intro n
  induction n with
  | zero =>
    intro s hs
    have : s = [] := List.eq_nil_of_length_eq_zero (Nat.le_zero.mp hs)
    subst this
    simp [listenLoop_nil]
  | succ n ih =>
    intro s hs
    match s with
    | [] => simp [listenLoop_nil]
    | t :: rest =>
      cases hm : lookupMsg table t with
      | none => simp [listenLoop_cons_noFind _ _ _ _ hm]
      | some m =>
        cases hr : m.read rest with
        | none => simp [listenLoop_cons_decodeErr _ _ _ _ _ hm hr]
        | some pr =>
          obtain ⟨msg, rest2⟩ := pr
          have hle := m.read_le rest msg rest2 hr
          have hlen : rest2.length ≤ n := by
            simp at hs
            omega
          rw [listenLoop_cons_ok _ _ _ _ _ _ _ hm hr,
              listenLoop_cons_ok _ _ _ _ _ _ _ hm hr]
          have ih2 := ih rest2 hlen
          simp [ih2.1, ih2.2.1, ih2.2.2]

theorem listenLoop_noCh (table : List ServerMessage) (s : List Nat) :
    (listenLoop table false s).delivered = [] ∧
    (listenLoop table false s).decoded = (listenLoop table true s).decoded ∧
    (listenLoop table false s).cause = (listenLoop table true s).cause :=
  listenLoop_noCh_aux table s.length s (Nat.le_refl _)

/-- Claim C1: `Connect` performs the five handshake steps in strict order —
protocol version, security, security result, client init, server init —
and returns a non-nil session if and only if every step succeeds; on any
step's failure it returns a nil session together with that step's error
(the trace records exactly which steps executed, in order). -/
theorem connect_steps_in_order_session_iff_all_succeed
    (cfg : ClientConfig) (stream : List Nat) (steps : HandshakeSteps) :
    ((Connect cfg stream steps).session.isSome ↔
      (steps.protocolVersionHandshake = none ∧ steps.securityHandshake = none ∧
       steps.securityResultHandshake = none ∧ steps.clientInit = none ∧
       steps.serverInit = none)) ∧
    (∀ e, steps.protocolVersionHandshake = some e →
      Connect cfg stream steps = ⟨none, some e, true, [.protocolVersion]⟩) ∧
    (∀ e, steps.protocolVersionHandshake = none →
      steps.securityHandshake = some e →
      Connect cfg stream steps =
        ⟨none, some e, true, [.protocolVersion, .security]⟩) ∧
    (∀ e, steps.protocolVersionHandshake = none →
      steps.securityHandshake = none → steps.securityResultHandshake = some e →
      Connect cfg stream steps =
        ⟨none, some e, true, [.protocolVersion, .security, .securityResult]⟩) ∧
    (∀ e, steps.protocolVersionHandshake = none →
      steps.securityHandshake = none → steps.securityResultHandshake = none →
      steps.clientInit = some e →
      Connect cfg stream steps =
        ⟨none, some e, true,
         [.protocolVersion, .security, .securityResult, .clientInitStep]⟩) ∧
    (∀ e, steps.protocolVersionHandshake = none →
      steps.securityHandshake = none → steps.securityResultHandshake = none →
      steps.clientInit = none → steps.serverInit = some e →
      Connect cfg stream steps =
        ⟨none, some e, true,
         [.protocolVersion, .security, .securityResult, .clientInitStep,
          .serverInitStep]⟩) ∧
    (steps.protocolVersionHandshake = none → steps.securityHandshake = none →
      steps.securityResultHandshake = none → steps.clientInit = none →
      steps.serverInit = none →
      Connect cfg stream steps =
        ⟨some { config := cfg, stream := stream }, none, false,
         [.protocolVersion, .security, .securityResult, .clientInitStep,
          .serverInitStep]⟩) := by
  obtain ⟨pv, sec, sr, ci, si⟩ := steps
  cases pv <;> cases sec <;> cases sr <;> cases ci <;> cases si <;>
    simp [Connect]

/-- Claim C1 witness: with the security handshake failing, `Connect`
returns a nil session, that step's error, a closed connection, and
stopped after the second step. -/
theorem connect_steps_in_order_witness :
    Connect (NewClientConfig "pw") [] { securityHandshake := some "boom" } =
      ⟨none, some "boom", true, [.protocolVersion, .security]⟩ :=
  (connect_steps_in_order_session_iff_all_succeed (NewClientConfig "pw") []
    { securityHandshake := some "boom" }).2.2.1 "boom" rfl rfl

/-- Claim C2: for every handshake step that fails during `Connect`, the
underlying connection is closed before the error is returned to the caller:
whenever `Connect` returns an error, `conn.Close()` has run. -/
theorem connect_failure_closes_connection
    (cfg : ClientConfig) (stream : List Nat) (steps : HandshakeSteps)
    (h : (Connect cfg stream steps).err.isSome) :
    (Connect cfg stream steps).closed = true := by
  obtain ⟨pv, sec, sr, ci, si⟩ := steps
  cases pv <;> cases sec <;> cases sr <;> cases ci <;> cases si <;>
    simp_all [Connect]

/-- Claim C2 witness: a failing server-init step yields an error result
with the connection closed. -/
theorem connect_failure_closes_connection_witness :
    (Connect (NewClientConfig "pw") [] { serverInit := some "oops" }).err.isSome
      = true ∧
    (Connect (NewClientConfig "pw") [] { serverInit := some "oops" }).closed
      = true :=
  ⟨rfl, connect_failure_closes_connection (NewClientConfig "pw") []
    { serverInit := some "oops" } rfl⟩

/-- Claim C3 (code bug evaluated at the failing input): the dispatch table
is built solely from `config.ServerMessages`, so a configuration declaring
only a custom type yields a table without the protocol-mandated
framebuffer-update type (code 0), and the loop treats the mandated type
byte as unsupported and delivers nothing — contradicting the claim (and
the source's own comment at `vncclient.go:70-73`) that mandated types are
always present. -/
theorem dispatch_table_lacks_mandated_types :
    lookupMsg [msgA] (NewFramebufferUpdateMessage none).type = none ∧
    ListenAndHandle connOnlyCustom =
      ⟨[], [], some .unsupportedType, none, true⟩ := by
  refine ⟨rfl, ?_⟩
  have h2 := listenLoop_cons_noFind [msgA] true 0 []
    (rfl : lookupMsg [msgA] 0 = none)
  simp [ListenAndHandle, connOnlyCustom, h2]

/-- Claim C4: for every input stream in which some message's type byte
matches no registered message type, the dispatch loop delivers exactly the
messages decoded before that byte, then terminates and closes the
connection, returning nil and delivering nothing further. -/
theorem dispatch_unsupported_type_fatal (c : ClientConn)
    (table : List ServerMessage) (msgs : List Msg) (t : Nat) (rest : List Nat)
    (hmsgs : c.config.ServerMessages = some table)
    (hch : c.config.ServerMessageCh = true)
    (hdec : DecodesTo table c.stream msgs (t :: rest))
    (hbad : lookupMsg table t = none) :
    ListenAndHandle c = ⟨msgs, msgs, some .unsupportedType, none, true⟩ := by
  have h1 := listenLoop_decodes table true hdec
  have h2 := listenLoop_cons_noFind table true t rest hbad
  simp [ListenAndHandle, hmsgs, hch, h1, h2]

/-- Claim C4 witness: a stream whose second message has an unregistered
type byte delivers exactly one message before the loop terminates with
the connection closed. -/
theorem dispatch_unsupported_type_fatal_witness :
    ListenAndHandle connSecondUnregistered =
      ⟨[{ payload := 100 }], [{ payload := 100 }], some .unsupportedType,
       none, true⟩ :=
  dispatch_unsupported_type_fatal connSecondUnregistered [msgA]
    [{ payload := 100 }] 9 [] rfl rfl
    (DecodesTo.cons (rfl : lookupMsg [msgA] 5 = some msgA)
      (rfl : msgA.read [9] = some ({ payload := 100 }, [9]))
      (DecodesTo.nil [9]))
    (rfl : lookupMsg [msgA] 9 = none)

/-- Claim C5: for every stream consisting of well-formed messages of
registered types, the dispatch loop delivers each decoded message to the
consumer channel in exactly the order the messages appear on the wire,
with no loss, reordering, or batching. -/
theorem dispatch_delivers_in_order (c : ClientConn)
    (table : List ServerMessage) (msgs : List Msg)
    (hmsgs : c.config.ServerMessages = some table)
    (hch : c.config.ServerMessageCh = true)
    (hdec : DecodesTo table c.stream msgs []) :
    ListenAndHandle c = ⟨msgs, msgs, some .streamErr, none, true⟩ := by
  have h1 := listenLoop_decodes table true hdec
  simp [ListenAndHandle, hmsgs, hch, h1, listenLoop_nil]

/-- Claim C5 witness: a stream of two consecutive well-formed messages of
a registered type delivers both, in order, with no loss. -/
theorem dispatch_delivers_in_order_witness :
    ListenAndHandle connTwoMessages =
      ⟨[{ payload := 100 }, { payload := 100 }],
       [{ payload := 100 }, { payload := 100 }], some .streamErr,
       none, true⟩ :=
  dispatch_delivers_in_order connTwoMessages [msgA]
    [{ payload := 100 }, { payload := 100 }] rfl rfl
    (DecodesTo.cons (rfl : lookupMsg [msgA] 5 = some msgA)
      (rfl : msgA.read [5] = some ({ payload := 100 }, [5]))
      (DecodesTo.cons (rfl : lookupMsg [msgA] 5 = some msgA)
        (rfl : msgA.read [] = some ({ payload := 100 }, []))
        (DecodesTo.nil [])))

/-- Claim C6: the dispatch loop does not surface its termination cause to
the caller: whenever the loop runs (the message table is configured),
`ListenAndHandle` returns nil, whichever of the three causes stopped the
loop. -/
theorem dispatch_termination_returns_nil (c : ClientConn)
    (table : List ServerMessage)
    (hmsgs : c.config.ServerMessages = some table) :
    (ListenAndHandle c).ret = none ∧
    (ListenAndHandle c).cause =
      some (listenLoop table c.config.ServerMessageCh c.stream).cause := by
  simp [ListenAndHandle, hmsgs]

/-- Claim C6 witness: a failed type-byte read (exhausted stream), an
unsupported type byte, and a failing decoder all yield the same nil
return. -/
theorem dispatch_termination_returns_nil_witness :
    (ListenAndHandle connEmptyStream).ret = none ∧
    (ListenAndHandle connBadByte).ret = none ∧
    (ListenAndHandle connDecodeFail).ret = none :=
  ⟨(dispatch_termination_returns_nil connEmptyStream [msgA] rfl).1,
   (dispatch_termination_returns_nil connBadByte [msgA] rfl).1,
   (dispatch_termination_returns_nil connDecodeFail [msgB] rfl).1⟩

/-- Claim C7: every return of `ListenAndHandle` — termination on stream
error, unsupported type, decode error, and the missing-configuration early
return — closes the underlying connection; no exit path leaves it open. -/
theorem listen_and_handle_always_closes (c : ClientConn) :
    (ListenAndHandle c).closed = true := by
  unfold ListenAndHandle
  split <;> rfl

/-- Claim C8: if the configuration's list of server message types is nil,
`ListenAndHandle` fails with the configuration error before reading any
byte from the stream (the loop never ran: no decoded messages, no
termination cause, stream untouched). -/
theorem listen_and_handle_nil_config_error (c : ClientConn)
    (h : c.config.ServerMessages = none) :
    ListenAndHandle c = ⟨[], [], none,
      some (NewVNCError "Client config error: ServerMessages undefined"),
      true⟩ := by
  simp [ListenAndHandle, h]

/-- Claim C8 witness: a nil message-type configuration with bytes waiting
on the wire errors out without reading them. -/
theorem listen_and_handle_nil_config_error_witness :
    ListenAndHandle connNilMessages = ⟨[], [], none,
      some (NewVNCError "Client config error: ServerMessages undefined"),
      true⟩ :=
  listen_and_handle_nil_config_error connNilMessages rfl

/-- Claim C9: when no consumer channel is configured, every successfully
decoded message is discarded and the loop continues: nothing is delivered,
yet the same messages are decoded and the loop stops for the same reason
(and still returns nil) as it would with a channel configured. -/
theorem dispatch_no_channel_discards (c : ClientConn)
    (table : List ServerMessage)
    (hmsgs : c.config.ServerMessages = some table)
    (hch : c.config.ServerMessageCh = false) :
    (ListenAndHandle c).delivered = [] ∧
    (ListenAndHandle c).decoded = (listenLoop table true c.stream).decoded ∧
    (ListenAndHandle c).cause =
      some (listenLoop table true c.stream).cause ∧
    (ListenAndHandle c).ret = none := by
  have h := listenLoop_noCh table c.stream
  simp [ListenAndHandle, hmsgs, hch, h.1, h.2.1, h.2.2]

/-- Claim C9 witness: with two decodable messages and no channel, nothing
is delivered but both messages are decoded and the loop ends as usual. -/
theorem dispatch_no_channel_discards_witness :
    (ListenAndHandle connNoChannel).delivered = [] ∧
    (ListenAndHandle connNoChannel).decoded =
      (listenLoop [msgA] true [5, 5]).decoded ∧
    (ListenAndHandle connNoChannel).cause =
      some (listenLoop [msgA] true [5, 5]).cause ∧
    (ListenAndHandle connNoChannel).ret = none :=
  dispatch_no_channel_discards connNoChannel [msgA] rfl rfl

/-- Claim C10: for every password `p`, `NewClientConfig p` yields exactly
the no-auth and VNC-password auth candidates in that preference order,
password `p`, exactly the four protocol-mandated message types (codes
0, 1, 2, 3), and no consumer channel. -/
theorem new_client_config_populated (p : String) :
    (NewClientConfig p).Auth = [ClientAuth.noAuth, ClientAuth.vncAuth p] ∧
    (NewClientConfig p).Password = p ∧
    (NewClientConfig p).ServerMessages =
      some [NewFramebufferUpdateMessage none, SetColorMapEntriesMessage,
        BellMessage, ServerCutTextMessage] ∧
    (NewClientConfig p).ServerMessages.map (List.map ServerMessage.type) =
      some [0, 1, 2, 3] ∧
    (NewClientConfig p).ServerMessageCh = false ∧
    (NewClientConfig p).Exclusive = false :=
  ⟨rfl, rfl, rfl, rfl, rfl, rfl⟩

end VNC
